import Mathlib

/-!
Shallow embedding of the `rnd-surajan-aws-cognito` repository: a Gin HTTP
service in Go exposing six POST routes that wrap AWS Cognito operations
(`SignUp`, `ConfirmSignUp`, `InitiateAuth`, `ForgotPassword`,
`ConfirmForgotPassword`, `GlobalSignOut`) plus a root GET route.

Each Go handler is translated into a pure Lean function from the shared
application value and the request body (a JSON value) to the handler's
result: the application value after the request, the HTTP response (or
`none` when the Go code would panic on a nil-pointer dereference), and the
list of remote Cognito calls that were issued. Remote behaviour is
supplied by a `CognitoClient` record of functions, so the handlers stay
pure while every branch of the Go code is represented.
-/

set_option autoImplicit false

namespace Cognito

/-- JSON values, the payloads of requests and responses. -/
inductive Json where
  | null : Json
  | bool (b : Bool) : Json
  | num (n : Int) : Json
  | str (s : String) : Json
  | arr (elems : List Json) : Json
  | obj (fields : List (String × Json)) : Json

/-- First binding of a key in a JSON object body. -/
def jlookup : List (String × Json) → String → Option Json
  | [], _ => none
  | (k, v) :: rest, key => if k = key then some v else jlookup rest key

/-! ### Cognito request/response shapes (from aws-sdk-go), restricted to the
fields this program sets or reads. -/

/-- `cognito.AttributeType`: a named user attribute. -/
structure AttributeType where
  Name : String
  Value : String
deriving DecidableEq, Repr

/-- `cognito.SignUpInput` as constructed by `RegisterUser`. -/
structure SignUpInput where
  Username : String
  Password : String
  ClientId : String
  UserAttributes : List AttributeType
deriving DecidableEq, Repr

/-- `cognito.ConfirmSignUpInput` as constructed by `ConfirmUserRegistration`. -/
structure ConfirmSignUpInput where
  ClientId : String
  ConfirmationCode : String
  Username : String
deriving DecidableEq, Repr

/-- `cognito.InitiateAuthInput` as constructed by `LoginUser`. -/
structure InitiateAuthInput where
  AuthFlow : String
  AuthParameters : List (String × String)
  ClientId : String
deriving DecidableEq, Repr

/-- `cognito.ForgotPasswordInput` as constructed by `ForgotPassword`. -/
structure ForgotPasswordInput where
  Username : String
  ClientId : String
deriving DecidableEq, Repr

/-- `cognito.ConfirmForgotPasswordInput` as constructed by `ResetPassword`. -/
structure ConfirmForgotPasswordInput where
  Username : String
  Password : String
  ConfirmationCode : String
  ClientId : String
deriving DecidableEq, Repr

/-- `cognito.GlobalSignOutInput` as constructed by `LogoutUser`. -/
structure GlobalSignOutInput where
  AccessToken : String
deriving DecidableEq, Repr

/-- `cognito.AuthenticationResultType`: both token fields are pointers in Go
and may be absent (`nil`). -/
structure AuthenticationResultType where
  AccessToken : Option String
  IdToken : Option String
deriving DecidableEq, Repr

/-- `cognito.InitiateAuthOutput`: `AuthenticationResult` is a pointer in Go
and may be absent, e.g. on a challenge response. -/
structure InitiateAuthOutput where
  AuthenticationResult : Option AuthenticationResultType
deriving DecidableEq, Repr

/-- One remote call to the identity service, tagged by operation, carrying
the exact input the handler constructed. -/
inductive RemoteCall where
  | signUp (i : SignUpInput) : RemoteCall
  | confirmSignUp (i : ConfirmSignUpInput) : RemoteCall
  | initiateAuth (i : InitiateAuthInput) : RemoteCall
  | forgotPassword (i : ForgotPasswordInput) : RemoteCall
  | confirmForgotPassword (i : ConfirmForgotPasswordInput) : RemoteCall
  | globalSignOut (i : GlobalSignOutInput) : RemoteCall
deriving DecidableEq, Repr

/-- The remote identity service, one function per operation used by the
program. Go returns `(output, error)` pairs; here each operation returns
`Except` with the error text on the left. Outputs the program never reads
are `Unit`. -/
structure CognitoClient where
  signUp : SignUpInput → Except String Unit
  confirmSignUp : ConfirmSignUpInput → Except String Unit
  initiateAuth : InitiateAuthInput → Except String InitiateAuthOutput
  forgotPassword : ForgotPasswordInput → Except String Unit
  confirmForgotPassword : ConfirmForgotPasswordInput → Except String Unit
  globalSignOut : GlobalSignOutInput → Except String Unit

/-- The `App` struct: the shared application context handed to every
handler. -/
structure App where
  CognitoClient : CognitoClient
  UserPoolID : String
  AppClientID : String
  AppClientSecret : String
  Token : String

/-! ### Request body structs (from `main.go`) -/

/-- The `User` struct: username and password, both tagged
`binding:"required"`. -/
structure User where
  Username : String
  Password : String
deriving DecidableEq, Repr

/-- The `UserRegister` struct: nested `user` object plus `email` and
`name`, all required. -/
structure UserRegister where
  User : User
  Email : String
  Name : String
deriving DecidableEq, Repr

/-- The `UserRegisterConfirmation` struct. -/
structure UserRegisterConfirmation where
  Username : String
  ConfirmationCode : String
deriving DecidableEq, Repr

/-- The `UserForgotPassword` struct. -/
structure UserForgotPassword where
  Username : String
deriving DecidableEq, Repr

/-- The `UserResetPassword` struct. -/
structure UserResetPassword where
  User : User
  ConfirmationCode : String
deriving DecidableEq, Repr

/-- The `UserSignOut` struct. -/
structure UserSignOut where
  AccessToken : String
deriving DecidableEq, Repr

/-! ### `ctx.BindJSON` semantics

Gin's `BindJSON` first runs `encoding/json` unmarshalling (a present field
of the wrong JSON type is an unmarshal error; a missing field or JSON
`null` leaves the Go zero value), then runs the `binding:"required"`
validator, which rejects zero values (the empty string; for a nested
struct, its fields are validated as well). The exact Go error strings are
irrelevant to the handlers, which pass the text through verbatim, so the
embedding uses fixed message constants. -/

def errUnmarshalMsg : String := "json: cannot unmarshal value into Go struct field"

def errNotObjectMsg : String := "json: cannot unmarshal value into Go struct"

def errRequiredMsg : String := "Error: Field validation failed on the required tag"

/-- Unmarshal one string field: missing or `null` yields the zero value,
a non-string JSON value is an unmarshal error. -/
def getStrField (fields : List (String × Json)) (key : String) : Except String String :=
  match jlookup fields key with
  | none => Except.ok ""
  | some Json.null => Except.ok ""
  | some (Json.str s) => Except.ok s
  | some _ => Except.error errUnmarshalMsg

/-- Unmarshal the fields of a `User` object. -/
def unmarshalUser (fields : List (String × Json)) : Except String User :=
  match getStrField fields "username" with
  | Except.error e => Except.error e
  | Except.ok u =>
    match getStrField fields "password" with
    | Except.error e => Except.error e
    | Except.ok p => Except.ok { Username := u, Password := p }

/-- Unmarshal a nested `user` field: missing or `null` leaves the zero
`User`, a non-object value is an unmarshal error. -/
def getUserField (fields : List (String × Json)) : Except String User :=
  match jlookup fields "user" with
  | none => Except.ok { Username := "", Password := "" }
  | some Json.null => Except.ok { Username := "", Password := "" }
  | some (Json.obj ufields) => unmarshalUser ufields
  | some _ => Except.error errUnmarshalMsg

/-- `BindJSON` into `User` (the `/signin` payload). -/
def bindUser : Json → Except String User
  | Json.obj fields =>
    match unmarshalUser fields with
    | Except.error e => Except.error e
    | Except.ok u =>
      if u.Username = "" ∨ u.Password = "" then Except.error errRequiredMsg
      else Except.ok u
  | _ => Except.error errNotObjectMsg

/-- `BindJSON` into `UserRegister` (the `/signup` payload). -/
def bindUserRegister : Json → Except String UserRegister
  | Json.obj fields =>
    match getUserField fields with
    | Except.error e => Except.error e
    | Except.ok u =>
      match getStrField fields "email" with
      | Except.error e => Except.error e
      | Except.ok email =>
        match getStrField fields "name" with
        | Except.error e => Except.error e
        | Except.ok name =>
          if u.Username = "" ∨ u.Password = "" ∨ email = "" ∨ name = "" then
            Except.error errRequiredMsg
          else Except.ok { User := u, Email := email, Name := name }
  | _ => Except.error errNotObjectMsg

/-- `BindJSON` into `UserRegisterConfirmation` (the `/signup/confirmation`
payload). -/
def bindUserRegisterConfirmation : Json → Except String UserRegisterConfirmation
  | Json.obj fields =>
    match getStrField fields "username" with
    | Except.error e => Except.error e
    | Except.ok u =>
      match getStrField fields "confirmationCode" with
      | Except.error e => Except.error e
      | Except.ok c =>
        if u = "" ∨ c = "" then Except.error errRequiredMsg
        else Except.ok { Username := u, ConfirmationCode := c }
  | _ => Except.error errNotObjectMsg

/-- `BindJSON` into `UserForgotPassword` (the `/password/forgot` payload). -/
def bindUserForgotPassword : Json → Except String UserForgotPassword
  | Json.obj fields =>
    match getStrField fields "username" with
    | Except.error e => Except.error e
    | Except.ok u =>
      if u = "" then Except.error errRequiredMsg
      else Except.ok { Username := u }
  | _ => Except.error errNotObjectMsg

/-- `BindJSON` into `UserResetPassword` (the `/password/reset` payload). -/
def bindUserResetPassword : Json → Except String UserResetPassword
  | Json.obj fields =>
    match getUserField fields with
    | Except.error e => Except.error e
    | Except.ok u =>
      match getStrField fields "confirmationCode" with
      | Except.error e => Except.error e
      | Except.ok c =>
        if u.Username = "" ∨ u.Password = "" ∨ c = "" then Except.error errRequiredMsg
        else Except.ok { User := u, ConfirmationCode := c }
  | _ => Except.error errNotObjectMsg

/-- `BindJSON` into `UserSignOut` (the `/signout` payload). -/
def bindUserSignOut : Json → Except String UserSignOut
  | Json.obj fields =>
    match getStrField fields "accessToken" with
    | Except.error e => Except.error e
    | Except.ok t =>
      if t = "" then Except.error errRequiredMsg
      else Except.ok { AccessToken := t }
  | _ => Except.error errNotObjectMsg

/-- JSON values that unmarshal into neither a Go string field nor a nested
struct field: numbers, booleans and arrays are unmarshal errors for every
required field of every payload struct of this program. -/
def wrongTyped : Json → Bool
  | Json.num _ => true
  | Json.bool _ => true
  | Json.arr _ => true
  | _ => false

/-- The key `k` is either absent from the body object or bound to a value
of the wrong JSON type. -/
def badAt (fields : List (String × Json)) (k : String) : Prop :=
  jlookup fields k = none ∨ ∃ v, jlookup fields k = some v ∧ wrongTyped v = true

/-! ### HTTP responses and handler results -/

/-- An HTTP response as produced by `ctx.JSON`: status code and the
`gin.H` payload. -/
structure HttpResponse where
  status : Nat
  body : List (String × Json)

/-- The observable outcome of running one handler on one request:
the application value after the handler returns (the Go receiver is a
pointer, so mutation would be visible here), the response written (`none`
when the Go code panics on a nil-pointer dereference before responding),
and the remote calls issued, in order. -/
structure HandlerResult where
  appAfter : App
  resp : Option HttpResponse
  calls : List RemoteCall

def respBadRequest (e : String) : HttpResponse :=
  { status := 400, body := [("error", Json.str e)] }

def respServerError (e : String) : HttpResponse :=
  { status := 500, body := [("error", Json.str e)] }

def respMessage (m : String) : HttpResponse :=
  { status := 200, body := [("message", Json.str m)] }

/-! ### The six POST handlers (from `main.go`) -/

/-- The `cognito.SignUpInput` literal built in `RegisterUser`. -/
def mkSignUpInput (app : App) (newUser : UserRegister) : SignUpInput :=
  { Username := newUser.User.Username
    Password := newUser.User.Password
    ClientId := app.AppClientID
    UserAttributes :=
      [{ Name := "email", Value := newUser.Email },
       { Name := "name", Value := newUser.Name }] }

/-- `(app *App) RegisterUser`: bind `UserRegister`, call `SignUp`, map the
result. -/
def RegisterUser (app : App) (body : Json) : HandlerResult :=
  match bindUserRegister body with
  | Except.error e => ⟨app, some (respBadRequest e), []⟩
  | Except.ok newUser =>
    match app.CognitoClient.signUp (mkSignUpInput app newUser) with
    | Except.error e =>
      ⟨app, some (respServerError e), [RemoteCall.signUp (mkSignUpInput app newUser)]⟩
    | Except.ok _ =>
      ⟨app, some (respMessage "User Registered Successfully"),
       [RemoteCall.signUp (mkSignUpInput app newUser)]⟩

/-- The `cognito.ConfirmSignUpInput` literal built in
`ConfirmUserRegistration`. -/
def mkConfirmSignUpInput (app : App) (c : UserRegisterConfirmation) : ConfirmSignUpInput :=
  { ClientId := app.AppClientID
    ConfirmationCode := c.ConfirmationCode
    Username := c.Username }

/-- `(app *App) ConfirmUserRegistration`: bind `UserRegisterConfirmation`,
call `ConfirmSignUp`, map the result. -/
def ConfirmUserRegistration (app : App) (body : Json) : HandlerResult :=
  match bindUserRegisterConfirmation body with
  | Except.error e => ⟨app, some (respBadRequest e), []⟩
  | Except.ok confirmUser =>
    match app.CognitoClient.confirmSignUp (mkConfirmSignUpInput app confirmUser) with
    | Except.error e =>
      ⟨app, some (respServerError e),
       [RemoteCall.confirmSignUp (mkConfirmSignUpInput app confirmUser)]⟩
    | Except.ok _ =>
      ⟨app, some (respMessage "User is verified"),
       [RemoteCall.confirmSignUp (mkConfirmSignUpInput app confirmUser)]⟩

/-- The `cognito.InitiateAuthInput` literal built in `LoginUser`. -/
def mkInitiateAuthInput (app : App) (user : User) : InitiateAuthInput :=
  { AuthFlow := "USER_PASSWORD_AUTH"
    AuthParameters := [("USERNAME", user.Username), ("PASSWORD", user.Password)]
    ClientId := app.AppClientID }

/-- `(app *App) LoginUser`: bind `User`, call `InitiateAuth`; on success the
Go code dereferences `logInResult.AuthenticationResult.AccessToken` and
`.IdToken` unconditionally, so a missing `AuthenticationResult` or a
missing token is a nil-pointer panic, modelled as `resp = none`. -/
def LoginUser (app : App) (body : Json) : HandlerResult :=
  match bindUser body with
  | Except.error e => ⟨app, some (respBadRequest e), []⟩
  | Except.ok user =>
    match app.CognitoClient.initiateAuth (mkInitiateAuthInput app user) with
    | Except.error e =>
      ⟨app, some (respServerError e), [RemoteCall.initiateAuth (mkInitiateAuthInput app user)]⟩
    | Except.ok logInResult =>
      match logInResult.AuthenticationResult with
      | none => ⟨app, none, [RemoteCall.initiateAuth (mkInitiateAuthInput app user)]⟩
      | some ar =>
        match ar.AccessToken, ar.IdToken with
        | some accessTok, some idTok =>
          ⟨app,
           some { status := 200
                  body := [("message", Json.str "User Logged In Successfully"),
                           ("accessToken", Json.str accessTok),
                           ("idToken", Json.str idTok)] },
           [RemoteCall.initiateAuth (mkInitiateAuthInput app user)]⟩
        | _, _ => ⟨app, none, [RemoteCall.initiateAuth (mkInitiateAuthInput app user)]⟩

/-- The `cognito.ForgotPasswordInput` literal built in `ForgotPassword`. -/
def mkForgotPasswordInput (app : App) (user : UserForgotPassword) : ForgotPasswordInput :=
  { Username := user.Username
    ClientId := app.AppClientID }

/-- `(app *App) ForgotPassword`: bind `UserForgotPassword`, call
`ForgotPassword`, map the result. -/
def ForgotPassword (app : App) (body : Json) : HandlerResult :=
  match bindUserForgotPassword body with
  | Except.error e => ⟨app, some (respBadRequest e), []⟩
  | Except.ok user =>
    match app.CognitoClient.forgotPassword (mkForgotPasswordInput app user) with
    | Except.error e =>
      ⟨app, some (respServerError e),
       [RemoteCall.forgotPassword (mkForgotPasswordInput app user)]⟩
    | Except.ok _ =>
      ⟨app,
       some (respMessage
         "Code was sent to your email. Please use that code to reset your password."),
       [RemoteCall.forgotPassword (mkForgotPasswordInput app user)]⟩

/-- The `cognito.ConfirmForgotPasswordInput` literal built in
`ResetPassword`. -/
def mkConfirmForgotPasswordInput (app : App) (user : UserResetPassword) :
    ConfirmForgotPasswordInput :=
  { Username := user.User.Username
    Password := user.User.Password
    ConfirmationCode := user.ConfirmationCode
    ClientId := app.AppClientID }

/-- `(app *App) ResetPassword`: bind `UserResetPassword`, call
`ConfirmForgotPassword`, map the result. -/
def ResetPassword (app : App) (body : Json) : HandlerResult :=
  match bindUserResetPassword body with
  | Except.error e => ⟨app, some (respBadRequest e), []⟩
  | Except.ok user =>
    match app.CognitoClient.confirmForgotPassword (mkConfirmForgotPasswordInput app user) with
    | Except.error e =>
      ⟨app, some (respServerError e),
       [RemoteCall.confirmForgotPassword (mkConfirmForgotPasswordInput app user)]⟩
    | Except.ok _ =>
      ⟨app, some (respMessage "Password successfully reset."),
       [RemoteCall.confirmForgotPassword (mkConfirmForgotPasswordInput app user)]⟩

/-- The `cognito.GlobalSignOutInput` literal built in `LogoutUser`. -/
def mkGlobalSignOutInput (user : UserSignOut) : GlobalSignOutInput :=
  { AccessToken := user.AccessToken }

/-- `(app *App) LogoutUser`: bind `UserSignOut`, call `GlobalSignOut`, map
the result. -/
def LogoutUser (app : App) (body : Json) : HandlerResult :=
  match bindUserSignOut body with
  | Except.error e => ⟨app, some (respBadRequest e), []⟩
  | Except.ok user =>
    match app.CognitoClient.globalSignOut (mkGlobalSignOutInput user) with
    | Except.error e =>
      ⟨app, some (respServerError e), [RemoteCall.globalSignOut (mkGlobalSignOutInput user)]⟩
    | Except.ok _ =>
      ⟨app, some (respMessage "User logged out successfully."),
       [RemoteCall.globalSignOut (mkGlobalSignOutInput user)]⟩

/-! ### Routing and startup (from `main`) -/

/-- The six POST routes registered in `main`. -/
inductive Route where
  | signup : Route
  | signupConfirmation : Route
  | signin : Route
  | passwordForgot : Route
  | passwordReset : Route
  | signout : Route
deriving DecidableEq, Repr

/-- Dispatch a POST request on a route to its registered handler. -/
def postHandle (r : Route) (app : App) (body : Json) : HandlerResult :=
  match r with
  | Route.signup => RegisterUser app body
  | Route.signupConfirmation => ConfirmUserRegistration app body
  | Route.signin => LoginUser app body
  | Route.passwordForgot => ForgotPassword app body
  | Route.passwordReset => ResetPassword app body
  | Route.signout => LogoutUser app body

/-- The binder each route uses, projected to its error text, `none` when
binding succeeds. -/
def bindErrorOf (r : Route) (body : Json) : Option String :=
  match r with
  | Route.signup =>
    match bindUserRegister body with
    | Except.error e => some e
    | Except.ok _ => none
  | Route.signupConfirmation =>
    match bindUserRegisterConfirmation body with
    | Except.error e => some e
    | Except.ok _ => none
  | Route.signin =>
    match bindUser body with
    | Except.error e => some e
    | Except.ok _ => none
  | Route.passwordForgot =>
    match bindUserForgotPassword body with
    | Except.error e => some e
    | Except.ok _ => none
  | Route.passwordReset =>
    match bindUserResetPassword body with
    | Except.error e => some e
    | Except.ok _ => none
  | Route.signout =>
    match bindUserSignOut body with
    | Except.error e => some e
    | Except.ok _ => none

/-- The required top-level JSON keys of each route's payload struct. -/
def requiredKeys : Route → List String
  | Route.signup => ["user", "email", "name"]
  | Route.signupConfirmation => ["username", "confirmationCode"]
  | Route.signin => ["username", "password"]
  | Route.passwordForgot => ["username"]
  | Route.passwordReset => ["user", "confirmationCode"]
  | Route.signout => ["accessToken"]

/-- The root GET handler: ignores the request entirely. -/
def rootHandler (_body : Json) : HttpResponse :=
  { status := 200, body := [("message", Json.str "Learning AWS Cognito")] }

/-- The environment variables read after `EnvInit`. -/
structure EnvVars where
  COGNITO_USER_POOL_ID : String
  COGNITO_APP_CLIENT_ID : String
  COGNITO_APP_CLIENT_SECRET : String

/-- Outcome of process startup: either `log.Fatalf` terminated the process
inside `EnvInit` before any route was registered, or the server is up with
an application value and the registered routes. -/
inductive StartupResult where
  | fatal (msg : String) : StartupResult
  | serving (app : App) (routes : List Route) : StartupResult

/-- `main` together with `environment.EnvInit`: the result of
`godotenv.Load(".env")` is the `dotenv` argument; on a load error
`log.Fatalf` exits the process immediately, otherwise the `App` is built
from the environment and the six routes are registered. The Go `Token`
field is never assigned, so it keeps the zero value. -/
def mainStartup (client : CognitoClient) (dotenv : Except String EnvVars) : StartupResult :=
  match dotenv with
  | Except.error e => StartupResult.fatal e
  | Except.ok env =>
    StartupResult.serving
      { CognitoClient := client
        UserPoolID := env.COGNITO_USER_POOL_ID
        AppClientID := env.COGNITO_APP_CLIENT_ID
        AppClientSecret := env.COGNITO_APP_CLIENT_SECRET
        Token := "" }
      [Route.signup, Route.signupConfirmation, Route.signin,
       Route.passwordForgot, Route.passwordReset, Route.signout]

/-! ### Concrete clients, applications and bodies used to instantiate the
theorems -/

/-- A remote service on which every operation succeeds and `InitiateAuth`
returns both tokens. -/
def okClient : CognitoClient :=
  { signUp := fun _ => Except.ok ()
    confirmSignUp := fun _ => Except.ok ()
    initiateAuth := fun _ =>
      Except.ok ⟨some ⟨some "access-token-1", some "id-token-1"⟩⟩
    forgotPassword := fun _ => Except.ok ()
    confirmForgotPassword := fun _ => Except.ok ()
    globalSignOut := fun _ => Except.ok () }

/-- A remote service on which every operation fails with a fixed error
text. -/
def errClient : CognitoClient :=
  { signUp := fun _ => Except.error "NotAuthorizedException: remote failure"
    confirmSignUp := fun _ => Except.error "NotAuthorizedException: remote failure"
    initiateAuth := fun _ => Except.error "NotAuthorizedException: remote failure"
    forgotPassword := fun _ => Except.error "NotAuthorizedException: remote failure"
    confirmForgotPassword := fun _ => Except.error "NotAuthorizedException: remote failure"
    globalSignOut := fun _ => Except.error "NotAuthorizedException: remote failure" }

/-- A remote service whose `InitiateAuth` succeeds but returns a challenge
response: no `AuthenticationResult` at all. -/
def challengeClient : CognitoClient :=
  { signUp := fun _ => Except.ok ()
    confirmSignUp := fun _ => Except.ok ()
    initiateAuth := fun _ => Except.ok { AuthenticationResult := none }
    forgotPassword := fun _ => Except.ok ()
    confirmForgotPassword := fun _ => Except.ok ()
    globalSignOut := fun _ => Except.ok () }

def okApp : App :=
  { CognitoClient := okClient, UserPoolID := "pool-1", AppClientID := "client-1"
    AppClientSecret := "secret-1", Token := "" }

/-- Same client and application client id as `okApp`, different pool id,
client secret and token. -/
def okAppShifted : App :=
  { CognitoClient := okClient, UserPoolID := "pool-2", AppClientID := "client-1"
    AppClientSecret := "secret-2", Token := "token-2" }

/-- Same as `okApp` except for the configured application client id. -/
def okAppOtherClientId : App :=
  { CognitoClient := okClient, UserPoolID := "pool-1", AppClientID := "client-2"
    AppClientSecret := "secret-1", Token := "" }

def errApp : App :=
  { CognitoClient := errClient, UserPoolID := "pool-1", AppClientID := "client-1"
    AppClientSecret := "secret-1", Token := "" }

def challengeApp : App :=
  { CognitoClient := challengeClient, UserPoolID := "pool-1", AppClientID := "client-1"
    AppClientSecret := "secret-1", Token := "" }

def signinBody : Json :=
  Json.obj [("username", Json.str "alice"), ("password", Json.str "Secret123!")]

def signupBody : Json :=
  Json.obj [("user", signinBody), ("email", Json.str "alice@example.com"),
            ("name", Json.str "Alice")]

def confirmBody : Json :=
  Json.obj [("username", Json.str "alice"), ("confirmationCode", Json.str "123456")]

def forgotBody : Json :=
  Json.obj [("username", Json.str "alice")]

def resetBody : Json :=
  Json.obj [("user", signinBody), ("confirmationCode", Json.str "123456")]

def signoutBody : Json :=
  Json.obj [("accessToken", Json.str "tok-abc")]

def envVars1 : EnvVars :=
  { COGNITO_USER_POOL_ID := "pool-1", COGNITO_APP_CLIENT_ID := "client-1"
    COGNITO_APP_CLIENT_SECRET := "secret-1" }

/-! ### Helper lemmas about the binders -/

lemma getStrField_of_missing {fields : List (String × Json)} {k : String}
    (h : jlookup fields k = none) : getStrField fields k = Except.ok "" := by
  simp [getStrField, h]

lemma getStrField_of_wrongTyped {fields : List (String × Json)} {k : String} {v : Json}
    (h : jlookup fields k = some v) (hv : wrongTyped v = true) :
    getStrField fields k = Except.error errUnmarshalMsg := by
  cases v <;> simp [wrongTyped] at hv <;> simp [getStrField, h]

lemma getStrField_bad {fields : List (String × Json)} {k : String} (h : badAt fields k) :
    getStrField fields k = Except.ok "" ∨
      getStrField fields k = Except.error errUnmarshalMsg := by
  rcases h with h | ⟨v, h, hv⟩
  · exact Or.inl (getStrField_of_missing h)
  · exact Or.inr (getStrField_of_wrongTyped h hv)

lemma getUserField_of_missing {fields : List (String × Json)}
    (h : jlookup fields "user" = none) :
    getUserField fields = Except.ok { Username := "", Password := "" } := by
  simp [getUserField, h]

lemma getUserField_of_wrongTyped {fields : List (String × Json)} {v : Json}
    (h : jlookup fields "user" = some v) (hv : wrongTyped v = true) :
    getUserField fields = Except.error errUnmarshalMsg := by
  cases v <;> simp [wrongTyped] at hv <;> simp [getUserField, h]

lemma getUserField_bad {fields : List (String × Json)} (h : badAt fields "user") :
    getUserField fields = Except.ok { Username := "", Password := "" } ∨
      getUserField fields = Except.error errUnmarshalMsg := by
  rcases h with h | ⟨v, h, hv⟩
  · exact Or.inl (getUserField_of_missing h)
  · exact Or.inr (getUserField_of_wrongTyped h hv)

lemma bindUser_bad_username {fields : List (String × Json)} (h : badAt fields "username") :
    ∃ e, bindUser (Json.obj fields) = Except.error e := by
  rcases getStrField_bad h with h1 | h1
  · cases hp : getStrField fields "password" with
    | error e => exact ⟨e, by simp [bindUser, unmarshalUser, h1, hp]⟩
    | ok p => exact ⟨errRequiredMsg, by simp [bindUser, unmarshalUser, h1, hp]⟩
  · exact ⟨errUnmarshalMsg, by simp [bindUser, unmarshalUser, h1]⟩

lemma bindUser_bad_password {fields : List (String × Json)} (h : badAt fields "password") :
    ∃ e, bindUser (Json.obj fields) = Except.error e := by
  rcases getStrField_bad h with h1 | h1
  · cases hu : getStrField fields "username" with
    | error e => exact ⟨e, by simp [bindUser, unmarshalUser, h1, hu]⟩
    | ok u => exact ⟨errRequiredMsg, by simp [bindUser, unmarshalUser, h1, hu]⟩
  · cases hu : getStrField fields "username" with
    | error e => exact ⟨e, by simp [bindUser, unmarshalUser, h1, hu]⟩
    | ok u => exact ⟨errUnmarshalMsg, by simp [bindUser, unmarshalUser, h1, hu]⟩

lemma bindUserRegister_bad_user {fields : List (String × Json)} (h : badAt fields "user") :
    ∃ e, bindUserRegister (Json.obj fields) = Except.error e := by
  rcases getUserField_bad h with h1 | h1
  · cases he : getStrField fields "email" with
    | error e => exact ⟨e, by simp [bindUserRegister, h1, he]⟩
    | ok email =>
      cases hn : getStrField fields "name" with
      | error e => exact ⟨e, by simp [bindUserRegister, h1, he, hn]⟩
      | ok name => exact ⟨errRequiredMsg, by simp [bindUserRegister, h1, he, hn]⟩
  · exact ⟨errUnmarshalMsg, by simp [bindUserRegister, h1]⟩

lemma bindUserRegister_bad_email {fields : List (String × Json)} (h : badAt fields "email") :
    ∃ e, bindUserRegister (Json.obj fields) = Except.error e := by
  cases hu : getUserField fields with
  | error e => exact ⟨e, by simp [bindUserRegister, hu]⟩
  | ok u =>
    rcases getStrField_bad h with h1 | h1
    · cases hn : getStrField fields "name" with
      | error e => exact ⟨e, by simp [bindUserRegister, hu, h1, hn]⟩
      | ok name => exact ⟨errRequiredMsg, by simp [bindUserRegister, hu, h1, hn]⟩
    · exact ⟨errUnmarshalMsg, by simp [bindUserRegister, hu, h1]⟩

lemma bindUserRegister_bad_name {fields : List (String × Json)} (h : badAt fields "name") :
    ∃ e, bindUserRegister (Json.obj fields) = Except.error e := by
  cases hu : getUserField fields with
  | error e => exact ⟨e, by simp [bindUserRegister, hu]⟩
  | ok u =>
    cases he : getStrField fields "email" with
    | error e => exact ⟨e, by simp [bindUserRegister, hu, he]⟩
    | ok email =>
      rcases getStrField_bad h with h1 | h1
      · exact ⟨errRequiredMsg, by simp [bindUserRegister, hu, he, h1]⟩
      · exact ⟨errUnmarshalMsg, by simp [bindUserRegister, hu, he, h1]⟩

lemma bindUserRegisterConfirmation_bad_username {fields : List (String × Json)}
    (h : badAt fields "username") :
    ∃ e, bindUserRegisterConfirmation (Json.obj fields) = Except.error e := by
  rcases getStrField_bad h with h1 | h1
  · cases hc : getStrField fields "confirmationCode" with
    | error e => exact ⟨e, by simp [bindUserRegisterConfirmation, h1, hc]⟩
    | ok c => exact ⟨errRequiredMsg, by simp [bindUserRegisterConfirmation, h1, hc]⟩
  · exact ⟨errUnmarshalMsg, by simp [bindUserRegisterConfirmation, h1]⟩

lemma bindUserRegisterConfirmation_bad_code {fields : List (String × Json)}
    (h : badAt fields "confirmationCode") :
    ∃ e, bindUserRegisterConfirmation (Json.obj fields) = Except.error e := by
  cases hu : getStrField fields "username" with
  | error e => exact ⟨e, by simp [bindUserRegisterConfirmation, hu]⟩
  | ok u =>
    rcases getStrField_bad h with h1 | h1
    · exact ⟨errRequiredMsg, by simp [bindUserRegisterConfirmation, hu, h1]⟩
    · exact ⟨errUnmarshalMsg, by simp [bindUserRegisterConfirmation, hu, h1]⟩

lemma bindUserForgotPassword_bad_username {fields : List (String × Json)}
    (h : badAt fields "username") :
    ∃ e, bindUserForgotPassword (Json.obj fields) = Except.error e := by
  rcases getStrField_bad h with h1 | h1
  · exact ⟨errRequiredMsg, by simp [bindUserForgotPassword, h1]⟩
  · exact ⟨errUnmarshalMsg, by simp [bindUserForgotPassword, h1]⟩

lemma bindUserResetPassword_bad_user {fields : List (String × Json)}
    (h : badAt fields "user") :
    ∃ e, bindUserResetPassword (Json.obj fields) = Except.error e := by
  rcases getUserField_bad h with h1 | h1
  · cases hc : getStrField fields "confirmationCode" with
    | error e => exact ⟨e, by simp [bindUserResetPassword, h1, hc]⟩
    | ok c => exact ⟨errRequiredMsg, by simp [bindUserResetPassword, h1, hc]⟩
  · exact ⟨errUnmarshalMsg, by simp [bindUserResetPassword, h1]⟩

lemma bindUserResetPassword_bad_code {fields : List (String × Json)}
    (h : badAt fields "confirmationCode") :
    ∃ e, bindUserResetPassword (Json.obj fields) = Except.error e := by
  cases hu : getUserField fields with
  | error e => exact ⟨e, by simp [bindUserResetPassword, hu]⟩
  | ok u =>
    rcases getStrField_bad h with h1 | h1
    · exact ⟨errRequiredMsg, by simp [bindUserResetPassword, hu, h1]⟩
    · exact ⟨errUnmarshalMsg, by simp [bindUserResetPassword, hu, h1]⟩

lemma bindUserSignOut_bad_token {fields : List (String × Json)}
    (h : badAt fields "accessToken") :
    ∃ e, bindUserSignOut (Json.obj fields) = Except.error e := by
  rcases getStrField_bad h with h1 | h1
  · exact ⟨errRequiredMsg, by simp [bindUserSignOut, h1]⟩
  · exact ⟨errUnmarshalMsg, by simp [bindUserSignOut, h1]⟩

/-! ### Claim theorems -/

/-- C1: on each of the six POST routes, whenever `BindJSON` fails — in
particular whenever a required top-level field is omitted or bound to a
value of the wrong JSON type — the handler answers HTTP 400 carrying the
parser's error text under the `error` key and issues no remote call. -/
theorem claim1_validation_error_no_remote_call :
    (∀ (r : Route) (app : App) (body : Json) (e : String),
        bindErrorOf r body = some e →
        postHandle r app body =
          { appAfter := app, resp := some (respBadRequest e), calls := [] })
    ∧ (∀ (r : Route) (fields : List (String × Json)) (k : String),
        k ∈ requiredKeys r → badAt fields k →
        ∃ e, bindErrorOf r (Json.obj fields) = some e) := by
  constructor
  · intro r app body e h
    cases r
    case signup =>
      cases hb : bindUserRegister body with
      | error e2 =>
        simp [bindErrorOf, hb] at h
        subst h
        simp [postHandle, RegisterUser, hb]
      | ok u => simp [bindErrorOf, hb] at h
    case signupConfirmation =>
      cases hb : bindUserRegisterConfirmation body with
      | error e2 =>
        simp [bindErrorOf, hb] at h
        subst h
        simp [postHandle, ConfirmUserRegistration, hb]
      | ok u => simp [bindErrorOf, hb] at h
    case signin =>
      cases hb : bindUser body with
      | error e2 =>
        simp [bindErrorOf, hb] at h
        subst h
        simp [postHandle, LoginUser, hb]
      | ok u => simp [bindErrorOf, hb] at h
    case passwordForgot =>
      cases hb : bindUserForgotPassword body with
      | error e2 =>
        simp [bindErrorOf, hb] at h
        subst h
        simp [postHandle, ForgotPassword, hb]
      | ok u => simp [bindErrorOf, hb] at h
    case passwordReset =>
      cases hb : bindUserResetPassword body with
      | error e2 =>
        simp [bindErrorOf, hb] at h
        subst h
        simp [postHandle, ResetPassword, hb]
      | ok u => simp [bindErrorOf, hb] at h
    case signout =>
      cases hb : bindUserSignOut body with
      | error e2 =>
        simp [bindErrorOf, hb] at h
        subst h
        simp [postHandle, LogoutUser, hb]
      | ok u => simp [bindErrorOf, hb] at h
  · intro r fields k hk hbad
    cases r
    case signup =>
      simp [requiredKeys] at hk
      rcases hk with rfl | rfl | rfl
      · obtain ⟨e, he⟩ := bindUserRegister_bad_user hbad
        exact ⟨e, by simp [bindErrorOf, he]⟩
      · obtain ⟨e, he⟩ := bindUserRegister_bad_email hbad
        exact ⟨e, by simp [bindErrorOf, he]⟩
      · obtain ⟨e, he⟩ := bindUserRegister_bad_name hbad
        exact ⟨e, by simp [bindErrorOf, he]⟩
    case signupConfirmation =>
      simp [requiredKeys] at hk
      rcases hk with rfl | rfl
      · obtain ⟨e, he⟩ := bindUserRegisterConfirmation_bad_username hbad
        exact ⟨e, by simp [bindErrorOf, he]⟩
      · obtain ⟨e, he⟩ := bindUserRegisterConfirmation_bad_code hbad
        exact ⟨e, by simp [bindErrorOf, he]⟩
    case signin =>
      simp [requiredKeys] at hk
      rcases hk with rfl | rfl
      · obtain ⟨e, he⟩ := bindUser_bad_username hbad
        exact ⟨e, by simp [bindErrorOf, he]⟩
      · obtain ⟨e, he⟩ := bindUser_bad_password hbad
        exact ⟨e, by simp [bindErrorOf, he]⟩
    case passwordForgot =>
      simp [requiredKeys] at hk
      subst hk
      obtain ⟨e, he⟩ := bindUserForgotPassword_bad_username hbad
      exact ⟨e, by simp [bindErrorOf, he]⟩
    case passwordReset =>
      simp [requiredKeys] at hk
      rcases hk with rfl | rfl
      · obtain ⟨e, he⟩ := bindUserResetPassword_bad_user hbad
        exact ⟨e, by simp [bindErrorOf, he]⟩
      · obtain ⟨e, he⟩ := bindUserResetPassword_bad_code hbad
        exact ⟨e, by simp [bindErrorOf, he]⟩
    case signout =>
      simp [requiredKeys] at hk
      subst hk
      obtain ⟨e, he⟩ := bindUserSignOut_bad_token hbad
      exact ⟨e, by simp [bindErrorOf, he]⟩

/-- C1 witness: a sign-in body with no fields at all is rejected with 400
and no remote call, and a sign-in body whose `username` is a number makes
the binder fail. -/
theorem claim1_validation_error_no_remote_call_witness :
    (postHandle Route.signin okApp (Json.obj []) =
      { appAfter := okApp, resp := some (respBadRequest errRequiredMsg), calls := [] })
    ∧ ∃ e, bindErrorOf Route.signin (Json.obj [("username", Json.num 3)]) = some e :=
  ⟨claim1_validation_error_no_remote_call.1 Route.signin okApp (Json.obj []) errRequiredMsg rfl,
   claim1_validation_error_no_remote_call.2 Route.signin [("username", Json.num 3)] "username"
     (by simp [requiredKeys]) (Or.inr ⟨Json.num 3, rfl, rfl⟩)⟩

/-- C5: the root GET handler answers HTTP 200 with exactly
`{"message":"Learning AWS Cognito"}`, whatever the request body. -/
theorem claim5_root_route_constant :
    ∀ body : Json,
      rootHandler body =
        { status := 200, body := [("message", Json.str "Learning AWS Cognito")] } := by
  intro body
  rfl

/-- C6: if loading the environment settings file fails, startup is fatal —
`log.Fatalf` terminates the process before any route is registered — and
conversely a process that is serving can only have come from a successful
load. -/
theorem claim6_startup_failure_is_fatal :
    (∀ (client : CognitoClient) (e : String),
        mainStartup client (Except.error e) = StartupResult.fatal e)
    ∧ (∀ (client : CognitoClient) (dotenv : Except String EnvVars) (app : App)
        (routes : List Route),
        mainStartup client dotenv = StartupResult.serving app routes →
        ∃ env, dotenv = Except.ok env) := by
  constructor
  · intro client e
    rfl
  · intro client dotenv app routes h
    cases dotenv with
    | error e => simp [mainStartup] at h
    | ok env => exact ⟨env, rfl⟩

/-- C6 witness: a failed `.env` load halts startup, and the concrete
serving startup arose from a successful load. -/
theorem claim6_startup_failure_is_fatal_witness :
    (mainStartup okClient (Except.error "open .env: no such file or directory") =
      StartupResult.fatal "open .env: no such file or directory")
    ∧ ∃ env, (Except.ok envVars1 : Except String EnvVars) = Except.ok env :=
  ⟨claim6_startup_failure_is_fatal.1 okClient "open .env: no such file or directory",
   claim6_startup_failure_is_fatal.2 okClient (Except.ok envVars1) okApp
     [Route.signup, Route.signupConfirmation, Route.signin,
      Route.passwordForgot, Route.passwordReset, Route.signout] rfl⟩

/-- C7: no handler mutates the shared application context — after any of
the six handlers runs on any body, the `App` value is unchanged. -/
theorem claim7_handlers_do_not_mutate_app :
    ∀ (r : Route) (app : App) (body : Json), (postHandle r app body).appAfter = app := by
  intro r app body
  cases r
  case signup =>
    simp only [postHandle]
    unfold RegisterUser
    split
    · rfl
    · split <;> rfl
  case signupConfirmation =>
    simp only [postHandle]
    unfold ConfirmUserRegistration
    split
    · rfl
    · split <;> rfl
  case signin =>
    simp only [postHandle]
    unfold LoginUser
    split
    · rfl
    · split
      · rfl
      · split
        · rfl
        · split <;> rfl
  case passwordForgot =>
    simp only [postHandle]
    unfold ForgotPassword
    split
    · rfl
    · split <;> rfl
  case passwordReset =>
    simp only [postHandle]
    unfold ResetPassword
    split
    · rfl
    · split <;> rfl
  case signout =>
    simp only [postHandle]
    unfold LogoutUser
    split
    · rfl
    · split <;> rfl

/-- C2 counterexample: on `/signout` the remote `GlobalSignOut` input
consists of the access token alone — it has no client-id field, so the
configured application client id is not part of the remote input: two
applications that differ precisely in `AppClientID` issue the identical
remote call. -/
theorem claim2_counterexample_signout_has_no_client_id :
    (LogoutUser okApp signoutBody).calls =
      [RemoteCall.globalSignOut { AccessToken := "tok-abc" }]
    ∧ okApp.AppClientID ≠ okAppOtherClientId.AppClientID
    ∧ (LogoutUser okApp signoutBody).calls =
        (LogoutUser okAppOtherClientId signoutBody).calls := by
  refine ⟨rfl, ?_, rfl⟩
  decide

/-- C2 (amended): every well-formed body on each of the six POST routes
yields exactly one remote call to the corresponding operation with all
body fields copied verbatim, plus the configured application client id on
the five operations whose remote input has a client-id field (`/signout`'s
`GlobalSignOutInput` carries only the access token). -/
theorem claim2_single_remote_call_fields_verbatim :
    (∀ (app : App) (body : Json) (u : UserRegister),
        bindUserRegister body = Except.ok u →
        (RegisterUser app body).calls =
          [RemoteCall.signUp
            { Username := u.User.Username, Password := u.User.Password
              ClientId := app.AppClientID
              UserAttributes :=
                [{ Name := "email", Value := u.Email },
                 { Name := "name", Value := u.Name }] }])
    ∧ (∀ (app : App) (body : Json) (c : UserRegisterConfirmation),
        bindUserRegisterConfirmation body = Except.ok c →
        (ConfirmUserRegistration app body).calls =
          [RemoteCall.confirmSignUp
            { ClientId := app.AppClientID, ConfirmationCode := c.ConfirmationCode
              Username := c.Username }])
    ∧ (∀ (app : App) (body : Json) (u : User),
        bindUser body = Except.ok u →
        (LoginUser app body).calls =
          [RemoteCall.initiateAuth
            { AuthFlow := "USER_PASSWORD_AUTH"
              AuthParameters := [("USERNAME", u.Username), ("PASSWORD", u.Password)]
              ClientId := app.AppClientID }])
    ∧ (∀ (app : App) (body : Json) (u : UserForgotPassword),
        bindUserForgotPassword body = Except.ok u →
        (ForgotPassword app body).calls =
          [RemoteCall.forgotPassword
            { Username := u.Username, ClientId := app.AppClientID }])
    ∧ (∀ (app : App) (body : Json) (u : UserResetPassword),
        bindUserResetPassword body = Except.ok u →
        (ResetPassword app body).calls =
          [RemoteCall.confirmForgotPassword
            { Username := u.User.Username, Password := u.User.Password
              ConfirmationCode := u.ConfirmationCode, ClientId := app.AppClientID }])
    ∧ (∀ (app : App) (body : Json) (u : UserSignOut),
        bindUserSignOut body = Except.ok u →
        (LogoutUser app body).calls =
          [RemoteCall.globalSignOut { AccessToken := u.AccessToken }]) := by
  refine ⟨?_, ?_, ?_, ?_, ?_, ?_⟩
  · intro app body u hb
    cases hc : app.CognitoClient.signUp (mkSignUpInput app u) with
    | error e =>
      simp only [RegisterUser, hb, hc]
      rfl
    | ok o =>
      simp only [RegisterUser, hb, hc]
      rfl
  · intro app body c hb
    cases hc : app.CognitoClient.confirmSignUp (mkConfirmSignUpInput app c) with
    | error e =>
      simp only [ConfirmUserRegistration, hb, hc]
      rfl
    | ok o =>
      simp only [ConfirmUserRegistration, hb, hc]
      rfl
  · intro app body u hb
    cases hc : app.CognitoClient.initiateAuth (mkInitiateAuthInput app u) with
    | error e =>
      simp only [LoginUser, hb, hc]
      rfl
    | ok out =>
      obtain ⟨arOpt⟩ := out
      cases arOpt with
      | none =>
        simp only [LoginUser, hb, hc]
        rfl
      | some ar =>
        obtain ⟨atOpt, itOpt⟩ := ar
        cases atOpt <;> cases itOpt <;> simp only [LoginUser, hb, hc] <;> rfl
  · intro app body u hb
    cases hc : app.CognitoClient.forgotPassword (mkForgotPasswordInput app u) with
    | error e =>
      simp only [ForgotPassword, hb, hc]
      rfl
    | ok o =>
      simp only [ForgotPassword, hb, hc]
      rfl
  · intro app body u hb
    cases hc : app.CognitoClient.confirmForgotPassword (mkConfirmForgotPasswordInput app u) with
    | error e =>
      simp only [ResetPassword, hb, hc]
      rfl
    | ok o =>
      simp only [ResetPassword, hb, hc]
      rfl
  · intro app body u hb
    cases hc : app.CognitoClient.globalSignOut (mkGlobalSignOutInput u) with
    | error e =>
      simp only [LogoutUser, hb, hc]
      rfl
    | ok o =>
      simp only [LogoutUser, hb, hc]
      rfl

/-- C2 witness: each route instantiated on a concrete well-formed body. -/
theorem claim2_single_remote_call_fields_verbatim_witness :
    (RegisterUser okApp signupBody).calls =
      [RemoteCall.signUp
        { Username := "alice", Password := "Secret123!", ClientId := "client-1"
          UserAttributes :=
            [{ Name := "email", Value := "alice@example.com" },
             { Name := "name", Value := "Alice" }] }]
    ∧ (ConfirmUserRegistration okApp confirmBody).calls =
        [RemoteCall.confirmSignUp
          { ClientId := "client-1", ConfirmationCode := "123456", Username := "alice" }]
    ∧ (LoginUser okApp signinBody).calls =
        [RemoteCall.initiateAuth
          { AuthFlow := "USER_PASSWORD_AUTH"
            AuthParameters := [("USERNAME", "alice"), ("PASSWORD", "Secret123!")]
            ClientId := "client-1" }]
    ∧ (ForgotPassword okApp forgotBody).calls =
        [RemoteCall.forgotPassword { Username := "alice", ClientId := "client-1" }]
    ∧ (ResetPassword okApp resetBody).calls =
        [RemoteCall.confirmForgotPassword
          { Username := "alice", Password := "Secret123!", ConfirmationCode := "123456"
            ClientId := "client-1" }]
    ∧ (LogoutUser okApp signoutBody).calls =
        [RemoteCall.globalSignOut { AccessToken := "tok-abc" }] :=
  ⟨claim2_single_remote_call_fields_verbatim.1 okApp signupBody
      { User := { Username := "alice", Password := "Secret123!" }
        Email := "alice@example.com", Name := "Alice" } rfl,
   claim2_single_remote_call_fields_verbatim.2.1 okApp confirmBody
      { Username := "alice", ConfirmationCode := "123456" } rfl,
   claim2_single_remote_call_fields_verbatim.2.2.1 okApp signinBody
      { Username := "alice", Password := "Secret123!" } rfl,
   claim2_single_remote_call_fields_verbatim.2.2.2.1 okApp forgotBody
      { Username := "alice" } rfl,
   claim2_single_remote_call_fields_verbatim.2.2.2.2.1 okApp resetBody
      { User := { Username := "alice", Password := "Secret123!" }
        ConfirmationCode := "123456" } rfl,
   claim2_single_remote_call_fields_verbatim.2.2.2.2.2 okApp signoutBody
      { AccessToken := "tok-abc" } rfl⟩

/-- C3 counterexample: a sign-in whose remote `InitiateAuth` call succeeds
but returns no `AuthenticationResult` (a challenge response) does not get
an HTTP 200 with tokens — the Go code dereferences the nil
`AuthenticationResult` pointer and panics before any response is
written. -/
theorem claim3_counterexample_success_without_tokens_panics :
    bindUser signinBody = Except.ok { Username := "alice", Password := "Secret123!" }
    ∧ challengeApp.CognitoClient.initiateAuth
        (mkInitiateAuthInput challengeApp { Username := "alice", Password := "Secret123!" })
        = Except.ok { AuthenticationResult := none }
    ∧ (LoginUser challengeApp signinBody).resp = none :=
  ⟨rfl, rfl, rfl⟩

/-- C3 (amended): a sign-in whose remote `InitiateAuth` call succeeds with
an `AuthenticationResult` carrying both tokens answers HTTP 200 with the
success message and those exact tokens; on every other POST route a
successful remote call answers HTTP 200 with only the fixed success
message and no tokens. -/
theorem claim3_success_response_shapes :
    (∀ (app : App) (body : Json) (u : User) (out : InitiateAuthOutput)
        (ar : AuthenticationResultType) (atk idt : String),
        bindUser body = Except.ok u →
        app.CognitoClient.initiateAuth (mkInitiateAuthInput app u) = Except.ok out →
        out.AuthenticationResult = some ar →
        ar.AccessToken = some atk → ar.IdToken = some idt →
        (LoginUser app body).resp =
          some { status := 200
                 body := [("message", Json.str "User Logged In Successfully"),
                          ("accessToken", Json.str atk), ("idToken", Json.str idt)] })
    ∧ (∀ (app : App) (body : Json) (u : UserRegister),
        bindUserRegister body = Except.ok u →
        app.CognitoClient.signUp (mkSignUpInput app u) = Except.ok () →
        (RegisterUser app body).resp =
          some { status := 200
                 body := [("message", Json.str "User Registered Successfully")] })
    ∧ (∀ (app : App) (body : Json) (c : UserRegisterConfirmation),
        bindUserRegisterConfirmation body = Except.ok c →
        app.CognitoClient.confirmSignUp (mkConfirmSignUpInput app c) = Except.ok () →
        (ConfirmUserRegistration app body).resp =
          some { status := 200, body := [("message", Json.str "User is verified")] })
    ∧ (∀ (app : App) (body : Json) (u : UserForgotPassword),
        bindUserForgotPassword body = Except.ok u →
        app.CognitoClient.forgotPassword (mkForgotPasswordInput app u) = Except.ok () →
        (ForgotPassword app body).resp =
          some { status := 200
                 body := [("message", Json.str
                   "Code was sent to your email. Please use that code to reset your password.")] })
    ∧ (∀ (app : App) (body : Json) (u : UserResetPassword),
        bindUserResetPassword body = Except.ok u →
        app.CognitoClient.confirmForgotPassword (mkConfirmForgotPasswordInput app u) =
          Except.ok () →
        (ResetPassword app body).resp =
          some { status := 200, body := [("message", Json.str "Password successfully reset.")] })
    ∧ (∀ (app : App) (body : Json) (u : UserSignOut),
        bindUserSignOut body = Except.ok u →
        app.CognitoClient.globalSignOut (mkGlobalSignOutInput u) = Except.ok () →
        (LogoutUser app body).resp =
          some { status := 200
                 body := [("message", Json.str "User logged out successfully.")] }) := by
  refine ⟨?_, ?_, ?_, ?_, ?_, ?_⟩
  · intro app body u out ar atk idt hb hc har hat hit
    simp only [LoginUser, hb, hc, har, hat, hit]
  · intro app body u hb hc
    simp only [RegisterUser, hb, hc]
    rfl
  · intro app body c hb hc
    simp only [ConfirmUserRegistration, hb, hc]
    rfl
  · intro app body u hb hc
    simp only [ForgotPassword, hb, hc]
    rfl
  · intro app body u hb hc
    simp only [ResetPassword, hb, hc]
    rfl
  · intro app body u hb hc
    simp only [LogoutUser, hb, hc]
    rfl

/-- C3 witness: concrete success responses on all six routes against a
remote service that succeeds and returns both tokens. -/
theorem claim3_success_response_shapes_witness :
    (LoginUser okApp signinBody).resp =
      some { status := 200
             body := [("message", Json.str "User Logged In Successfully"),
                      ("accessToken", Json.str "access-token-1"),
                      ("idToken", Json.str "id-token-1")] }
    ∧ (RegisterUser okApp signupBody).resp =
        some { status := 200, body := [("message", Json.str "User Registered Successfully")] }
    ∧ (ConfirmUserRegistration okApp confirmBody).resp =
        some { status := 200, body := [("message", Json.str "User is verified")] }
    ∧ (ForgotPassword okApp forgotBody).resp =
        some { status := 200
               body := [("message", Json.str
                 "Code was sent to your email. Please use that code to reset your password.")] }
    ∧ (ResetPassword okApp resetBody).resp =
        some { status := 200, body := [("message", Json.str "Password successfully reset.")] }
    ∧ (LogoutUser okApp signoutBody).resp =
        some { status := 200, body := [("message", Json.str "User logged out successfully.")] } :=
  ⟨claim3_success_response_shapes.1 okApp signinBody
      { Username := "alice", Password := "Secret123!" }
      { AuthenticationResult :=
          some { AccessToken := some "access-token-1", IdToken := some "id-token-1" } }
      { AccessToken := some "access-token-1", IdToken := some "id-token-1" }
      "access-token-1" "id-token-1" rfl rfl rfl rfl rfl,
   claim3_success_response_shapes.2.1 okApp signupBody
      { User := { Username := "alice", Password := "Secret123!" }
        Email := "alice@example.com", Name := "Alice" } rfl rfl,
   claim3_success_response_shapes.2.2.1 okApp confirmBody
      { Username := "alice", ConfirmationCode := "123456" } rfl rfl,
   claim3_success_response_shapes.2.2.2.1 okApp forgotBody
      { Username := "alice" } rfl rfl,
   claim3_success_response_shapes.2.2.2.2.1 okApp resetBody
      { User := { Username := "alice", Password := "Secret123!" }
        ConfirmationCode := "123456" } rfl rfl,
   claim3_success_response_shapes.2.2.2.2.2 okApp signoutBody
      { AccessToken := "tok-abc" } rfl rfl⟩

/-- C4: on each of the six POST routes, when the remote call fails the
handler answers HTTP 500 whose body carries exactly the remote error's
text — and nothing else, in particular no tokens. -/
theorem claim4_remote_error_passed_through :
    (∀ (app : App) (body : Json) (u : UserRegister) (e : String),
        bindUserRegister body = Except.ok u →
        app.CognitoClient.signUp (mkSignUpInput app u) = Except.error e →
        (RegisterUser app body).resp =
          some { status := 500, body := [("error", Json.str e)] })
    ∧ (∀ (app : App) (body : Json) (c : UserRegisterConfirmation) (e : String),
        bindUserRegisterConfirmation body = Except.ok c →
        app.CognitoClient.confirmSignUp (mkConfirmSignUpInput app c) = Except.error e →
        (ConfirmUserRegistration app body).resp =
          some { status := 500, body := [("error", Json.str e)] })
    ∧ (∀ (app : App) (body : Json) (u : User) (e : String),
        bindUser body = Except.ok u →
        app.CognitoClient.initiateAuth (mkInitiateAuthInput app u) = Except.error e →
        (LoginUser app body).resp =
          some { status := 500, body := [("error", Json.str e)] })
    ∧ (∀ (app : App) (body : Json) (u : UserForgotPassword) (e : String),
        bindUserForgotPassword body = Except.ok u →
        app.CognitoClient.forgotPassword (mkForgotPasswordInput app u) = Except.error e →
        (ForgotPassword app body).resp =
          some { status := 500, body := [("error", Json.str e)] })
    ∧ (∀ (app : App) (body : Json) (u : UserResetPassword) (e : String),
        bindUserResetPassword body = Except.ok u →
        app.CognitoClient.confirmForgotPassword (mkConfirmForgotPasswordInput app u) =
          Except.error e →
        (ResetPassword app body).resp =
          some { status := 500, body := [("error", Json.str e)] })
    ∧ (∀ (app : App) (body : Json) (u : UserSignOut) (e : String),
        bindUserSignOut body = Except.ok u →
        app.CognitoClient.globalSignOut (mkGlobalSignOutInput u) = Except.error e →
        (LogoutUser app body).resp =
          some { status := 500, body := [("error", Json.str e)] }) := by
  refine ⟨?_, ?_, ?_, ?_, ?_, ?_⟩
  · intro app body u e hb hc
    simp only [RegisterUser, hb, hc]
    rfl
  · intro app body c e hb hc
    simp only [ConfirmUserRegistration, hb, hc]
    rfl
  · intro app body u e hb hc
    simp only [LoginUser, hb, hc]
    rfl
  · intro app body u e hb hc
    simp only [ForgotPassword, hb, hc]
    rfl
  · intro app body u e hb hc
    simp only [ResetPassword, hb, hc]
    rfl
  · intro app body u e hb hc
    simp only [LogoutUser, hb, hc]
    rfl

/-- C4 witness: each route against a remote service that always fails
passes the remote error text through with status 500. -/
theorem claim4_remote_error_passed_through_witness :
    (RegisterUser errApp signupBody).resp =
      some { status := 500
             body := [("error", Json.str "NotAuthorizedException: remote failure")] }
    ∧ (ConfirmUserRegistration errApp confirmBody).resp =
        some { status := 500
               body := [("error", Json.str "NotAuthorizedException: remote failure")] }
    ∧ (LoginUser errApp signinBody).resp =
        some { status := 500
               body := [("error", Json.str "NotAuthorizedException: remote failure")] }
    ∧ (ForgotPassword errApp forgotBody).resp =
        some { status := 500
               body := [("error", Json.str "NotAuthorizedException: remote failure")] }
    ∧ (ResetPassword errApp resetBody).resp =
        some { status := 500
               body := [("error", Json.str "NotAuthorizedException: remote failure")] }
    ∧ (LogoutUser errApp signoutBody).resp =
        some { status := 500
               body := [("error", Json.str "NotAuthorizedException: remote failure")] } :=
  ⟨claim4_remote_error_passed_through.1 errApp signupBody
      { User := { Username := "alice", Password := "Secret123!" }
        Email := "alice@example.com", Name := "Alice" }
      "NotAuthorizedException: remote failure" rfl rfl,
   claim4_remote_error_passed_through.2.1 errApp confirmBody
      { Username := "alice", ConfirmationCode := "123456" }
      "NotAuthorizedException: remote failure" rfl rfl,
   claim4_remote_error_passed_through.2.2.1 errApp signinBody
      { Username := "alice", Password := "Secret123!" }
      "NotAuthorizedException: remote failure" rfl rfl,
   claim4_remote_error_passed_through.2.2.2.1 errApp forgotBody
      { Username := "alice" } "NotAuthorizedException: remote failure" rfl rfl,
   claim4_remote_error_passed_through.2.2.2.2.1 errApp resetBody
      { User := { Username := "alice", Password := "Secret123!" }
        ConfirmationCode := "123456" } "NotAuthorizedException: remote failure" rfl rfl,
   claim4_remote_error_passed_through.2.2.2.2.2 errApp signoutBody
      { AccessToken := "tok-abc" } "NotAuthorizedException: remote failure" rfl rfl⟩

/-- C8: on the sign-in success path the Go code dereferences
`AuthenticationResult.AccessToken` and `.IdToken` unconditionally, so any
successful `InitiateAuth` response missing `AuthenticationResult` or
either token makes the handler panic (no response is written): absence of
those fields must be excluded for the success path to be safe. -/
theorem claim8_nil_dereference_without_tokens :
    ∀ (app : App) (body : Json) (u : User) (out : InitiateAuthOutput),
      bindUser body = Except.ok u →
      app.CognitoClient.initiateAuth (mkInitiateAuthInput app u) = Except.ok out →
      (out.AuthenticationResult = none ∨
        ∃ ar, out.AuthenticationResult = some ar ∧
          (ar.AccessToken = none ∨ ar.IdToken = none)) →
      (LoginUser app body).resp = none := by
  intro app body u out hb hc habs
  rcases habs with har | ⟨ar, har, hmiss⟩
  · simp only [LoginUser, hb, hc, har]
  · rcases hmiss with hat | hit
    · cases hitv : ar.IdToken with
      | none => simp only [LoginUser, hb, hc, har, hat, hitv]
      | some t => simp only [LoginUser, hb, hc, har, hat, hitv]
    · cases hatv : ar.AccessToken with
      | none => simp only [LoginUser, hb, hc, har, hatv, hit]
      | some t => simp only [LoginUser, hb, hc, har, hatv, hit]

/-- C8 witness: against a remote service that succeeds with a challenge
response (no `AuthenticationResult`), sign-in writes no response. -/
theorem claim8_nil_dereference_without_tokens_witness :
    (LoginUser challengeApp signinBody).resp = none :=
  claim8_nil_dereference_without_tokens challengeApp signinBody
    { Username := "alice", Password := "Secret123!" }
    { AuthenticationResult := none } rfl rfl (Or.inl rfl)

section ObservationLemmas

variable {app1 app2 : App}

lemma RegisterUser_obs (hc : app1.CognitoClient = app2.CognitoClient)
    (hid : app1.AppClientID = app2.AppClientID) (body : Json) :
    (RegisterUser app1 body).resp = (RegisterUser app2 body).resp ∧
      (RegisterUser app1 body).calls = (RegisterUser app2 body).calls := by
  have hmk : ∀ u, mkSignUpInput app1 u = mkSignUpInput app2 u := by
    intro u
    simp [mkSignUpInput, hid]
  cases hb : bindUserRegister body with
  | error e => constructor <;> simp only [RegisterUser, hb]
  | ok u =>
    cases hcall : app1.CognitoClient.signUp (mkSignUpInput app1 u) with
    | error e =>
      have hcall2 : app2.CognitoClient.signUp (mkSignUpInput app2 u) = Except.error e := by
        rw [← hc, ← hmk u]
        exact hcall
      constructor <;> simp only [RegisterUser, hb, hc, hcall, hcall2, hmk u]
    | ok o =>
      have hcall2 : app2.CognitoClient.signUp (mkSignUpInput app2 u) = Except.ok o := by
        rw [← hc, ← hmk u]
        exact hcall
      constructor <;> simp only [RegisterUser, hb, hc, hcall, hcall2, hmk u]

lemma ConfirmUserRegistration_obs (hc : app1.CognitoClient = app2.CognitoClient)
    (hid : app1.AppClientID = app2.AppClientID) (body : Json) :
    (ConfirmUserRegistration app1 body).resp = (ConfirmUserRegistration app2 body).resp ∧
      (ConfirmUserRegistration app1 body).calls = (ConfirmUserRegistration app2 body).calls := by
  have hmk : ∀ c, mkConfirmSignUpInput app1 c = mkConfirmSignUpInput app2 c := by
    intro c
    simp [mkConfirmSignUpInput, hid]
  cases hb : bindUserRegisterConfirmation body with
  | error e => constructor <;> simp only [ConfirmUserRegistration, hb]
  | ok c =>
    cases hcall : app1.CognitoClient.confirmSignUp (mkConfirmSignUpInput app1 c) with
    | error e =>
      have hcall2 : app2.CognitoClient.confirmSignUp (mkConfirmSignUpInput app2 c) =
          Except.error e := by
        rw [← hc, ← hmk c]
        exact hcall
      constructor <;> simp only [ConfirmUserRegistration, hb, hc, hcall, hcall2, hmk c]
    | ok o =>
      have hcall2 : app2.CognitoClient.confirmSignUp (mkConfirmSignUpInput app2 c) =
          Except.ok o := by
        rw [← hc, ← hmk c]
        exact hcall
      constructor <;> simp only [ConfirmUserRegistration, hb, hc, hcall, hcall2, hmk c]

lemma LoginUser_obs (hc : app1.CognitoClient = app2.CognitoClient)
    (hid : app1.AppClientID = app2.AppClientID) (body : Json) :
    (LoginUser app1 body).resp = (LoginUser app2 body).resp ∧
      (LoginUser app1 body).calls = (LoginUser app2 body).calls := by
  have hmk : ∀ u, mkInitiateAuthInput app1 u = mkInitiateAuthInput app2 u := by
    intro u
    simp [mkInitiateAuthInput, hid]
  cases hb : bindUser body with
  | error e => constructor <;> simp only [LoginUser, hb]
  | ok u =>
    cases hcall : app1.CognitoClient.initiateAuth (mkInitiateAuthInput app1 u) with
    | error e =>
      have hcall2 : app2.CognitoClient.initiateAuth (mkInitiateAuthInput app2 u) =
          Except.error e := by
        rw [← hc, ← hmk u]
        exact hcall
      constructor <;> simp only [LoginUser, hb, hc, hcall, hcall2, hmk u]
    | ok out =>
      have hcall2 : app2.CognitoClient.initiateAuth (mkInitiateAuthInput app2 u) =
          Except.ok out := by
        rw [← hc, ← hmk u]
        exact hcall
      obtain ⟨arOpt⟩ := out
      cases arOpt with
      | none => constructor <;> simp only [LoginUser, hb, hc, hcall, hcall2, hmk u]
      | some ar =>
        obtain ⟨atOpt, itOpt⟩ := ar
        cases atOpt <;> cases itOpt <;>
          (constructor <;> simp only [LoginUser, hb, hc, hcall, hcall2, hmk u])

lemma ForgotPassword_obs (hc : app1.CognitoClient = app2.CognitoClient)
    (hid : app1.AppClientID = app2.AppClientID) (body : Json) :
    (ForgotPassword app1 body).resp = (ForgotPassword app2 body).resp ∧
      (ForgotPassword app1 body).calls = (ForgotPassword app2 body).calls := by
  have hmk : ∀ u, mkForgotPasswordInput app1 u = mkForgotPasswordInput app2 u := by
    intro u
    simp [mkForgotPasswordInput, hid]
  cases hb : bindUserForgotPassword body with
  | error e => constructor <;> simp only [ForgotPassword, hb]
  | ok u =>
    cases hcall : app1.CognitoClient.forgotPassword (mkForgotPasswordInput app1 u) with
    | error e =>
      have hcall2 : app2.CognitoClient.forgotPassword (mkForgotPasswordInput app2 u) =
          Except.error e := by
        rw [← hc, ← hmk u]
        exact hcall
      constructor <;> simp only [ForgotPassword, hb, hc, hcall, hcall2, hmk u]
    | ok o =>
      have hcall2 : app2.CognitoClient.forgotPassword (mkForgotPasswordInput app2 u) =
          Except.ok o := by
        rw [← hc, ← hmk u]
        exact hcall
      constructor <;> simp only [ForgotPassword, hb, hc, hcall, hcall2, hmk u]

lemma ResetPassword_obs (hc : app1.CognitoClient = app2.CognitoClient)
    (hid : app1.AppClientID = app2.AppClientID) (body : Json) :
    (ResetPassword app1 body).resp = (ResetPassword app2 body).resp ∧
      (ResetPassword app1 body).calls = (ResetPassword app2 body).calls := by
  have hmk : ∀ u, mkConfirmForgotPasswordInput app1 u = mkConfirmForgotPasswordInput app2 u := by
    intro u
    simp [mkConfirmForgotPasswordInput, hid]
  cases hb : bindUserResetPassword body with
  | error e => constructor <;> simp only [ResetPassword, hb]
  | ok u =>
    cases hcall :
        app1.CognitoClient.confirmForgotPassword (mkConfirmForgotPasswordInput app1 u) with
    | error e =>
      have hcall2 : app2.CognitoClient.confirmForgotPassword
          (mkConfirmForgotPasswordInput app2 u) = Except.error e := by
        rw [← hc, ← hmk u]
        exact hcall
      constructor <;> simp only [ResetPassword, hb, hc, hcall, hcall2, hmk u]
    | ok o =>
      have hcall2 : app2.CognitoClient.confirmForgotPassword
          (mkConfirmForgotPasswordInput app2 u) = Except.ok o := by
        rw [← hc, ← hmk u]
        exact hcall
      constructor <;> simp only [ResetPassword, hb, hc, hcall, hcall2, hmk u]

lemma LogoutUser_obs (hc : app1.CognitoClient = app2.CognitoClient)
    (body : Json) :
    (LogoutUser app1 body).resp = (LogoutUser app2 body).resp ∧
      (LogoutUser app1 body).calls = (LogoutUser app2 body).calls := by
  cases hb : bindUserSignOut body with
  | error e => constructor <;> simp only [LogoutUser, hb]
  | ok u =>
    cases hcall : app1.CognitoClient.globalSignOut (mkGlobalSignOutInput u) with
    | error e =>
      have hcall2 : app2.CognitoClient.globalSignOut (mkGlobalSignOutInput u) =
          Except.error e := by
        rw [← hc]
        exact hcall
      constructor <;> simp only [LogoutUser, hb, hc, hcall, hcall2]
    | ok o =>
      have hcall2 : app2.CognitoClient.globalSignOut (mkGlobalSignOutInput u) =
          Except.ok o := by
        rw [← hc]
        exact hcall
      constructor <;> simp only [LogoutUser, hb, hc, hcall, hcall2]

end ObservationLemmas

/-- C9: handler observables depend only on the remote client handle and the
application client id — two application contexts agreeing on those two
fields (but differing arbitrarily in `UserPoolID`, `AppClientSecret` and
`Token`) produce the same response and the same remote calls on every
route and body. -/
theorem claim9_secret_pool_token_never_read :
    ∀ (r : Route) (app1 app2 : App) (body : Json),
      app1.CognitoClient = app2.CognitoClient →
      app1.AppClientID = app2.AppClientID →
      (postHandle r app1 body).resp = (postHandle r app2 body).resp ∧
        (postHandle r app1 body).calls = (postHandle r app2 body).calls := by
  intro r app1 app2 body hc hid
  cases r
  case signup => exact RegisterUser_obs hc hid body
  case signupConfirmation => exact ConfirmUserRegistration_obs hc hid body
  case signin => exact LoginUser_obs hc hid body
  case passwordForgot => exact ForgotPassword_obs hc hid body
  case passwordReset => exact ResetPassword_obs hc hid body
  case signout => exact LogoutUser_obs hc body

/-- C9 witness: two concrete contexts differing in pool id, client secret
and token behave identically on a concrete sign-in. -/
theorem claim9_secret_pool_token_never_read_witness :
    (postHandle Route.signin okApp signinBody).resp =
      (postHandle Route.signin okAppShifted signinBody).resp ∧
      (postHandle Route.signin okApp signinBody).calls =
        (postHandle Route.signin okAppShifted signinBody).calls :=
  claim9_secret_pool_token_never_read Route.signin okApp okAppShifted signinBody rfl rfl

/-- C10: every response any handler writes is one of two disjoint shapes —
a success (status 200) whose body has the key `message` and no key
`error`, or an error (status 400 or 500) whose body has the key `error`
and no key `message`; the root handler always produces the success
shape. -/
theorem claim10_error_and_success_keys_disjoint :
    (∀ (r : Route) (app : App) (body : Json) (resp : HttpResponse),
        (postHandle r app body).resp = some resp →
        (resp.status = 200 ∧ (jlookup resp.body "message").isSome = true ∧
            (jlookup resp.body "error").isSome = false)
        ∨ ((resp.status = 400 ∨ resp.status = 500) ∧
            (jlookup resp.body "error").isSome = true ∧
            (jlookup resp.body "message").isSome = false))
    ∧ (∀ body : Json,
        (rootHandler body).status = 200 ∧
          (jlookup (rootHandler body).body "message").isSome = true ∧
          (jlookup (rootHandler body).body "error").isSome = false) := by
  constructor
  · intro r app body resp h
    cases r
    case signup =>
      cases hb : bindUserRegister body with
      | error e =>
        simp only [postHandle, RegisterUser, hb, Option.some.injEq] at h
        subst h
        exact Or.inr ⟨Or.inl rfl, rfl, rfl⟩
      | ok u =>
        cases hcall : app.CognitoClient.signUp (mkSignUpInput app u) with
        | error e =>
          simp only [postHandle, RegisterUser, hb, hcall, Option.some.injEq] at h
          subst h
          exact Or.inr ⟨Or.inr rfl, rfl, rfl⟩
        | ok o =>
          simp only [postHandle, RegisterUser, hb, hcall, Option.some.injEq] at h
          subst h
          exact Or.inl ⟨rfl, rfl, rfl⟩
    case signupConfirmation =>
      cases hb : bindUserRegisterConfirmation body with
      | error e =>
        simp only [postHandle, ConfirmUserRegistration, hb, Option.some.injEq] at h
        subst h
        exact Or.inr ⟨Or.inl rfl, rfl, rfl⟩
      | ok c =>
        cases hcall : app.CognitoClient.confirmSignUp (mkConfirmSignUpInput app c) with
        | error e =>
          simp only [postHandle, ConfirmUserRegistration, hb, hcall, Option.some.injEq] at h
          subst h
          exact Or.inr ⟨Or.inr rfl, rfl, rfl⟩
        | ok o =>
          simp only [postHandle, ConfirmUserRegistration, hb, hcall, Option.some.injEq] at h
          subst h
          exact Or.inl ⟨rfl, rfl, rfl⟩
    case signin =>
      cases hb : bindUser body with
      | error e =>
        simp only [postHandle, LoginUser, hb, Option.some.injEq] at h
        subst h
        exact Or.inr ⟨Or.inl rfl, rfl, rfl⟩
      | ok u =>
        cases hcall : app.CognitoClient.initiateAuth (mkInitiateAuthInput app u) with
        | error e =>
          simp only [postHandle, LoginUser, hb, hcall, Option.some.injEq] at h
          subst h
          exact Or.inr ⟨Or.inr rfl, rfl, rfl⟩
        | ok out =>
          obtain ⟨arOpt⟩ := out
          cases arOpt with
          | none =>
            simp only [postHandle, LoginUser, hb, hcall] at h
            exact Option.noConfusion h
          | some ar =>
            obtain ⟨atOpt, itOpt⟩ := ar
            cases atOpt with
            | none =>
              cases itOpt with
              | none =>
                simp only [postHandle, LoginUser, hb, hcall] at h
                exact Option.noConfusion h
              | some idt =>
                simp only [postHandle, LoginUser, hb, hcall] at h
                exact Option.noConfusion h
            | some atk =>
              cases itOpt with
              | none =>
                simp only [postHandle, LoginUser, hb, hcall] at h
                exact Option.noConfusion h
              | some idt =>
                simp only [postHandle, LoginUser, hb, hcall, Option.some.injEq] at h
                subst h
                exact Or.inl ⟨rfl, rfl, rfl⟩
    case passwordForgot =>
      cases hb : bindUserForgotPassword body with
      | error e =>
        simp only [postHandle, ForgotPassword, hb, Option.some.injEq] at h
        subst h
        exact Or.inr ⟨Or.inl rfl, rfl, rfl⟩
      | ok u =>
        cases hcall : app.CognitoClient.forgotPassword (mkForgotPasswordInput app u) with
        | error e =>
          simp only [postHandle, ForgotPassword, hb, hcall, Option.some.injEq] at h
          subst h
          exact Or.inr ⟨Or.inr rfl, rfl, rfl⟩
        | ok o =>
          simp only [postHandle, ForgotPassword, hb, hcall, Option.some.injEq] at h
          subst h
          exact Or.inl ⟨rfl, rfl, rfl⟩
    case passwordReset =>
      cases hb : bindUserResetPassword body with
      | error e =>
        simp only [postHandle, ResetPassword, hb, Option.some.injEq] at h
        subst h
        exact Or.inr ⟨Or.inl rfl, rfl, rfl⟩
      | ok u =>
        cases hcall :
            app.CognitoClient.confirmForgotPassword (mkConfirmForgotPasswordInput app u) with
        | error e =>
          simp only [postHandle, ResetPassword, hb, hcall, Option.some.injEq] at h
          subst h
          exact Or.inr ⟨Or.inr rfl, rfl, rfl⟩
        | ok o =>
          simp only [postHandle, ResetPassword, hb, hcall, Option.some.injEq] at h
          subst h
          exact Or.inl ⟨rfl, rfl, rfl⟩
    case signout =>
      cases hb : bindUserSignOut body with
      | error e =>
        simp only [postHandle, LogoutUser, hb, Option.some.injEq] at h
        subst h
        exact Or.inr ⟨Or.inl rfl, rfl, rfl⟩
      | ok u =>
        cases hcall : app.CognitoClient.globalSignOut (mkGlobalSignOutInput u) with
        | error e =>
          simp only [postHandle, LogoutUser, hb, hcall, Option.some.injEq] at h
          subst h
          exact Or.inr ⟨Or.inr rfl, rfl, rfl⟩
        | ok o =>
          simp only [postHandle, LogoutUser, hb, hcall, Option.some.injEq] at h
          subst h
          exact Or.inl ⟨rfl, rfl, rfl⟩
  · intro body
    exact ⟨rfl, rfl, rfl⟩

/-- C10 witness: the concrete signup success response instantiates the
disjunction. -/
theorem claim10_error_and_success_keys_disjoint_witness :
    ((respMessage "User Registered Successfully").status = 200 ∧
        (jlookup (respMessage "User Registered Successfully").body "message").isSome = true ∧
        (jlookup (respMessage "User Registered Successfully").body "error").isSome = false)
    ∨ (((respMessage "User Registered Successfully").status = 400 ∨
          (respMessage "User Registered Successfully").status = 500) ∧
        (jlookup (respMessage "User Registered Successfully").body "error").isSome = true ∧
        (jlookup (respMessage "User Registered Successfully").body "message").isSome = false) :=
  claim10_error_and_success_keys_disjoint.1 Route.signup okApp signupBody
    (respMessage "User Registered Successfully") rfl

end Cognito
